import Mathlib

/-!
Shallow embedding of `src/main.rs` of the `controller_test` repository:
a layered clean-architecture demo wiring a domain entity (`Data`), a stub
repository, a use-case service (`CreateDataService`), a DI container
(`Handler`), and a generic controller/transformer/presenter pipeline.

Modelling conventions:
* `async` functions become pure functions (the single awaited boundary is
  the repository call; the program is sequential, so awaiting is function
  application).
* `Result<T, u64>` becomes `Except Nat T`; the numeric error code is only
  passed through, never computed with, so `Nat` is faithful.
* The `println!` logging side effects are outside the embedding; only
  return values are modelled.
* Rust traits with a single method are modelled by their method type or by
  a structure of functions (a trait dictionary); `Into`/`From` conversions
  are modelled by a Lean type class `Into` mirroring Rust's coherent
  instances.
-/

namespace ControllerTest

/-- `kernel::Data`: the domain entity with private `id`/`name` fields. -/
structure Data where
  id : String
  name : String
deriving DecidableEq, Repr

/-- `Data::new`: constructs the entity from its two fields
(`impl Into<String>` arguments instantiated at `String`). -/
def Data.new (id : String) (name : String) : Data :=
  { id := id, name := name }

/-- The field record produced by `destructure::Destructure`'s
`into_destruct` for `Data`. -/
structure DestructData where
  id : String
  name : String

/-- `Data::into_destruct` (generated by `#[derive(Destructure)]`):
decomposes the entity into its fields. -/
def Data.into_destruct (d : Data) : DestructData :=
  { id := d.id, name := d.name }

/-- `application::DataDto`: the use-case boundary DTO with public
`id`/`name` fields. -/
structure DataDto where
  id : String
  name : String
deriving DecidableEq, Repr

/-- Rust's `Into`/`From` conversion, as a type class mirroring the
coherent (one-instance-per-type-pair) Rust trait. -/
class Into (R : Type) (N : Type) where
  into : R → N

/-- `impl From<Data> for DataDto`: destructures the entity and rebuilds
the DTO from the same two fields. -/
instance : Into Data DataDto where
  into value :=
    let d := value.into_destruct
    { id := d.id, name := d.name }

/-- `driver::Pool`: opaque connection-pool placeholder. -/
structure Pool where

/-- `driver::DataRepository`: the stub repository holding a `Pool`. -/
structure DataRepository where
  pool : Pool

/-- `impl Repository for DataRepository`: logs (side effect outside the
embedding) and always returns `Ok(())`. -/
def DataRepository.create (_self : DataRepository) (_data : Data) : Except Nat Unit :=
  Except.ok ()

/-- `CreateDataService::create`, the default-provided use-case method,
generic over the repository (a `Repository` is modelled by its single
`create` method, `Data → Except Nat Unit`). The second component of the
result records the argument of every repository invocation the method
makes, so invocation-count properties can be stated; the Rust body
performs exactly the calls recorded here. The body mirrors the source:
destructure the DTO, build the entity with `Data::new`, call
`self.repository().create(&data).await?`, and on success return
`Ok(data.into())`. -/
def CreateDataService.createTraced (repo : Data → Except Nat Unit) (obj : DataDto) :
    Except Nat DataDto × List Data :=
  let data := Data.new obj.id obj.name
  match repo data with
  | Except.error e => (Except.error e, [data])
  | Except.ok _ => (Except.ok (Into.into data), [data])

/-- `CreateDataService::create`: the returned value of the use-case call
(the first component of the traced run). -/
def CreateDataService.create (repo : Data → Except Nat Unit) (obj : DataDto) :
    Except Nat DataDto :=
  (CreateDataService.createTraced repo obj).1

/-- `inject::Handler`: the DI container holding the single repository. -/
structure Handler where
  repo : DataRepository

/-- `Handler::init`: builds the container with `DataRepository(Pool)`. -/
def Handler.init : Handler :=
  { repo := { pool := {} } }

/-- `impl DependOnRepository for Handler`: returns the stored repository. -/
def Handler.repository (self : Handler) : DataRepository :=
  self.repo

/-- `impl DependOnCreateDataService for Handler`
(`type CreateDataService = Self`): returns the container itself. -/
def Handler.create_simple_data_service (self : Handler) : Handler :=
  self

/-- The blanket `impl<T: DependOnRepository> CreateDataService for T`
instantiated at `Handler`: the default `create` method running against the
container's repository. -/
def Handler.create (self : Handler) (obj : DataDto) : Except Nat DataDto :=
  CreateDataService.create (self.repository.create) obj

/-- `adaptor::InPort<I>` with `type Dto`: a transformer, modelled as its
trait dictionary (the single `emit` method). -/
structure InPort (I : Type) (Dto : Type) where
  emit : I → Dto

/-- `adaptor::OutPort<I>` with `type ViewModel`: a presenter, modelled as
its trait dictionary (the single `emit` method). -/
structure OutPort (I : Type) (ViewModel : Type) where
  emit : I → ViewModel

/-- `adaptor::PresentationalDataA`: the record-shaped view-model. -/
structure PresentationalDataA where
  id : String
  name : String
deriving DecidableEq, Repr

/-- `impl OutPort<Result<DataDto, u64>> for PresenterA`: on `Ok`, rebuild
a `PresentationalDataA` from the DTO's fields; on `Err`, pass the code. -/
def PresenterA : OutPort (Except Nat DataDto) (Except Nat PresentationalDataA) where
  emit input :=
    match input with
    | Except.ok input => Except.ok { id := input.id, name := input.name }
    | Except.error code => Except.error code

/-- Lowercase hexadecimal digit, as used by Rust's `\u\x7b...\x7d`
escapes. -/
def hexDigit (n : Nat) : Char :=
  if n < 10 then Char.ofNat (48 + n) else Char.ofNat (87 + n)

/-- Lowercase hexadecimal rendering (no leading zeros) of an ASCII
control code point, as it appears inside a Rust `\u\x7b...\x7d` escape. -/
def rustControlEscape (n : Nat) : String :=
  if n < 16 then String.singleton (hexDigit n)
  else String.singleton (hexDigit (n / 16)) ++ String.singleton (hexDigit (n % 16))

/-- One character of Rust's `Debug` escaping for `str` contents
(`char::escape_debug` with double quotes escaped, single quotes not):
`"` and `\` are backslash-escaped, `\0`/`\t`/`\r`/`\n` use their named
escapes, the remaining ASCII control characters and DEL become
`\u\x7b hex \x7d`, and all other characters are rendered verbatim. (The
real `Debug` additionally escapes non-printable or grapheme-extended
code points above 0x7f via the Unicode printability tables, which are
not modelled; theorems below about `Debug` output therefore constrain
field contents to ASCII, where this definition is exact.) -/
def rustEscapeChar (c : Char) : String :=
  if c = '"' then "\\\""
  else if c = '\\' then "\\\\"
  else if c = '\n' then "\\n"
  else if c = '\r' then "\\r"
  else if c = '\t' then "\\t"
  else if c = '\x00' then "\\0"
  else if c.toNat < 32 ∨ c.toNat = 127 then
    "\\u\x7b" ++ rustControlEscape c.toNat ++ "\x7d"
  else String.singleton c

/-- `Debug` escaping of a character list, character by character. -/
def rustEscapeList : List Char → String
  | [] => ""
  | c :: cs => rustEscapeChar c ++ rustEscapeList cs

/-- `Debug` escaping of a string's contents. -/
def rustEscapeString (s : String) : String :=
  rustEscapeList s.data

/-- A character `Debug` renders verbatim with no escaping: printable
ASCII other than the quote and the backslash. -/
def isDebugPlainChar (c : Char) : Bool :=
  decide (32 ≤ c.toNat) && decide (c.toNat < 127) && !(c == '"') && !(c == '\\')

/-- A string all of whose characters `Debug` renders verbatim. -/
def isDebugPlainString (s : String) : Bool :=
  s.data.all isDebugPlainChar

/-- The string `format!("{:?}", dto)` produces for a `DataDto` via the
derived `Debug` impl: the struct name, then each field name with its
`String` value quoted and escaped per `rustEscapeChar`. -/
def DataDto.rustDebug (d : DataDto) : String :=
  "DataDto \x7b id: \"" ++ rustEscapeString d.id ++ "\", name: \"" ++
    rustEscapeString d.name ++ "\" \x7d"

/-- `impl OutPort<Result<DataDto, u64>> for PresenterB`: on `Ok`, format
the DTO with `format!("{:?}", input)`; on `Err`, pass the code. -/
def PresenterB : OutPort (Except Nat DataDto) (Except Nat String) where
  emit input :=
    match input with
    | Except.ok input => Except.ok (DataDto.rustDebug input)
    | Except.error code => Except.error code

/-- `adaptor::_Controller<T, P, I, D, O>`: the controller variant with an
explicit transform stage; `T: InPort<I, Dto = D>` and `P: OutPort<O>` are
carried as the trait-dictionary fields (`V` is `P::ViewModel`). -/
structure _Controller (I D O V : Type) where
  transformer : InPort I D
  presenter : OutPort O V

/-- `_Controller::new`. -/
def _Controller.new {I D O V : Type} (transformer : InPort I D) (presenter : OutPort O V) :
    _Controller I D O V :=
  { transformer := transformer, presenter := presenter }

/-- `adaptor::Transformed<T, P, I, D, O>`: the controller after the
transform stage, holding the transformed input. -/
structure Transformed (I D O V : Type) where
  controller : _Controller I D O V
  trans_input : D

/-- `_Controller::transform`: consumes the controller, applying the
transformer's `emit` to the input eagerly. -/
def _Controller.transform {I D O V : Type} (self : _Controller I D O V) (input : I) :
    Transformed I D O V :=
  { controller := self, trans_input := self.transformer.emit input }

/-- `_Controller::present`: consumes the controller, yielding the
presenter. -/
def _Controller.present {I D O V : Type} (self : _Controller I D O V) : OutPort O V :=
  self.presenter

/-- `Transformed::handle`: invokes the caller-supplied handler on the
already-transformed input, awaits it (pure here), and presents the
result. -/
def Transformed.handle {I D O V : Type} (self : Transformed I D O V) (f : D → O) : V :=
  (self.controller.present).emit (f self.trans_input)

/-- `adaptor::Controller<P, D>`: the simpler controller variant (deferred
conversion); `P: OutPort<D>` as a trait dictionary (`V` is
`P::ViewModel`). -/
structure Controller (D V : Type) where
  presenter : OutPort D V

/-- `Controller::new`. -/
def Controller.new {D V : Type} (presenter : OutPort D V) : Controller D V :=
  { presenter := presenter }

/-- `adaptor::Captured<R, N, D, P>`: the controller after capturing a raw
input `R` convertible into the DTO type `N`; conversion is deferred. -/
structure Captured (R N D V : Type) where
  controller : Controller D V
  input : R

/-- `Controller::capture`: consumes the controller, storing the raw input
unconverted (the `R: Into<N>` bound is required here, used in `handle`). -/
def Controller.capture {R N D V : Type} [Into R N] (self : Controller D V) (input : R) :
    Captured R N D V :=
  { controller := self, input := input }

/-- `Captured::handle`: converts the stored input via `Into`, invokes the
caller-supplied handler, awaits it (pure here), and presents the result. -/
def Captured.handle {R N D V : Type} [Into R N] (self : Captured R N D V) (f : N → D) : V :=
  self.controller.presenter.emit (f (Into.into self.input))

/-- `UserInputForm`: the raw input type defined in `main`. -/
structure UserInputForm where
  id : String
  name : String
deriving DecidableEq, Repr

/-- `impl InPort<UserInputForm> for TransformerA`: copies the two fields
into a `DataDto`. -/
def TransformerA : InPort UserInputForm DataDto where
  emit input := { id := input.id, name := input.name }

/-- `impl From<UserInputForm> for DataDto`: copies the two fields. -/
instance : Into UserInputForm DataDto where
  into value := { id := value.id, name := value.name }

/-- The sample input of `main`: `id="abc123"`, `name="test man"`. -/
def sampleInput : UserInputForm :=
  { id := "abc123", name := "test man" }

/-- The first pipeline run of `main`: `ControllerA` (explicit transform)
with `TransformerA` and `PresenterA`, handler calling the container's
use-case service. -/
def mainRun1 (h : Handler) (input : UserInputForm) : Except Nat PresentationalDataA :=
  ((_Controller.new TransformerA PresenterA).transform input).handle
    (fun input => (h.create_simple_data_service).create input)

/-- The second pipeline run of `main`: `ControllerA` with `PresenterB`. -/
def mainRun2 (h : Handler) (input : UserInputForm) : Except Nat String :=
  ((_Controller.new TransformerA PresenterB).transform input).handle
    (fun input => (h.create_simple_data_service).create input)

/-- The third pipeline run of `main`: `ControllerB` (deferred conversion)
with `PresenterA`. -/
def mainRun3 (h : Handler) (input : UserInputForm) : Except Nat PresentationalDataA :=
  (((Controller.new PresenterA).capture input :
      Captured UserInputForm DataDto (Except Nat DataDto) (Except Nat PresentationalDataA))).handle
    (fun input : DataDto => (h.create_simple_data_service).create input)

/-- The fourth pipeline run of `main`: `ControllerB` with `PresenterB`. -/
def mainRun4 (h : Handler) (input : UserInputForm) : Except Nat String :=
  (((Controller.new PresenterB).capture input :
      Captured UserInputForm DataDto (Except Nat DataDto) (Except Nat String))).handle
    (fun input : DataDto => (h.create_simple_data_service).create input)

/-- The explicit-transform pipeline with `PresenterA` over an arbitrary
repository (for error-propagation properties). -/
def pipelineA (repo : Data → Except Nat Unit) (input : UserInputForm) :
    Except Nat PresentationalDataA :=
  ((_Controller.new TransformerA PresenterA).transform input).handle
    (fun d => CreateDataService.create repo d)

/-- The explicit-transform pipeline with `PresenterB` over an arbitrary
repository. -/
def pipelineB (repo : Data → Except Nat Unit) (input : UserInputForm) :
    Except Nat String :=
  ((_Controller.new TransformerA PresenterB).transform input).handle
    (fun d => CreateDataService.create repo d)

/-- C1: Round-trip fidelity. For every `DataDto` `d`, the use-case call
through the container (whose repository is the always-succeeding stub)
returns `Ok(d)` — the DTO round-trips losslessly through the entity — and
the create pipeline on the corresponding raw input yields a success
view-model with exactly the input's `id` and `name`. -/
theorem c1_roundtrip_fidelity (d : DataDto) :
    Handler.init.create d = Except.ok d ∧
    mainRun1 Handler.init { id := d.id, name := d.name } =
      Except.ok { id := d.id, name := d.name } :=
  ⟨rfl, rfl⟩

/-- C2: Error propagation. If the repository returns `Err(e)` on the
entity built from the input, then the use-case call returns `Err(e)`
unchanged, and the pipeline's final view-model through either `PresenterA`
or `PresenterB` is the `Err` variant carrying exactly that code. -/
theorem c2_error_propagation (repo : Data → Except Nat Unit) (input : UserInputForm) (e : Nat)
    (h : repo (Data.new input.id input.name) = Except.error e) :
    CreateDataService.create repo { id := input.id, name := input.name } = Except.error e ∧
    pipelineA repo input = Except.error e ∧
    pipelineB repo input = Except.error e := by
  have hs : CreateDataService.create repo { id := input.id, name := input.name } =
      Except.error e := by
    simp [CreateDataService.create, CreateDataService.createTraced, h]
  refine ⟨hs, ?_, ?_⟩ <;>
    simp [pipelineA, pipelineB, Transformed.handle, _Controller.transform, _Controller.present,
      _Controller.new, TransformerA, hs, PresenterA, PresenterB]

/-- Witness for C2 at the concrete repository that always fails with code
`7` and the sample input. -/
theorem c2_error_propagation_witness :
    (fun _ : Data => (Except.error 7 : Except Nat Unit))
        (Data.new sampleInput.id sampleInput.name) = Except.error 7 ∧
    (CreateDataService.create (fun _ => Except.error 7)
        { id := sampleInput.id, name := sampleInput.name } = Except.error 7 ∧
      pipelineA (fun _ => Except.error 7) sampleInput = Except.error 7 ∧
      pipelineB (fun _ => Except.error 7) sampleInput = Except.error 7) :=
  ⟨rfl, c2_error_propagation (fun _ => Except.error 7) sampleInput 7 rfl⟩

/-- C3: Transformer substitution transparency. For the same handler `f`
and the same presenter `p`, if the input's two ingress conversions agree
(the transformer's `emit` and the `Into` conversion produce the same DTO),
then the explicit-transform controller variant and the deferred-conversion
variant produce identical final view-models. -/
theorem c3_transformer_substitution {I D O V : Type} [Into I D]
    (t : InPort I D) (p : OutPort O V) (i : I) (f : D → O)
    (h : t.emit i = Into.into i) :
    ((_Controller.new t p).transform i).handle f =
      (((Controller.new p).capture i : Captured I D O V)).handle f := by
  show p.emit (f (t.emit i)) = p.emit (f (Into.into i))
  rw [h]

/-- Witness for C3 at `TransformerA`, `PresenterA`, the sample input, and
the container-backed use-case handler. -/
theorem c3_transformer_substitution_witness :
    TransformerA.emit sampleInput = (Into.into sampleInput : DataDto) ∧
    ((_Controller.new TransformerA PresenterA).transform sampleInput).handle
        (fun d => Handler.init.create d) =
      (((Controller.new PresenterA).capture sampleInput :
          Captured UserInputForm DataDto (Except Nat DataDto)
            (Except Nat PresentationalDataA))).handle
        (fun d => Handler.init.create d) :=
  ⟨rfl, c3_transformer_substitution TransformerA PresenterA sampleInput
    (fun d => Handler.init.create d) rfl⟩

/-- C4: Handle-stage semantics. `Transformed::handle` equals the presenter
applied to the handler's result on the already-transformed DTO, and
`Captured::handle` equals the presenter applied to the handler's result on
the deferred `Into`-conversion of the raw input: conversion first, then
exactly one invocation of the handler, then presentation. -/
theorem c4_handle_semantics {I D O V : Type} [Into I D]
    (t : InPort I D) (p : OutPort O V) (i : I) (f : D → O) :
    ((_Controller.new t p).transform i).handle f = p.emit (f (t.emit i)) ∧
    (((Controller.new p).capture i : Captured I D O V)).handle f =
      p.emit (f (Into.into i)) :=
  ⟨rfl, rfl⟩

/-- `Debug` renders a list of plain characters verbatim. -/
theorem rustEscapeList_eq_self (l : List Char) (h : l.all isDebugPlainChar = true) :
    rustEscapeList l = String.mk l := by
  induction l with
  | nil => rfl
  | cons c cs ih =>
    rw [List.all_cons, Bool.and_eq_true] at h
    obtain ⟨hc, hcs⟩ := h
    simp only [isDebugPlainChar, Bool.and_eq_true, decide_eq_true_eq, Bool.not_eq_true',
      beq_eq_false_iff_ne, ne_eq] at hc
    obtain ⟨⟨⟨h32, h127⟩, hq⟩, hb⟩ := hc
    have hn : ¬c = '\n' := fun e => by rw [e] at h32; exact absurd h32 (by decide)
    have hr : ¬c = '\r' := fun e => by rw [e] at h32; exact absurd h32 (by decide)
    have ht : ¬c = '\t' := fun e => by rw [e] at h32; exact absurd h32 (by decide)
    have h0 : ¬c = '\x00' := fun e => by rw [e] at h32; exact absurd h32 (by decide)
    have hu : ¬(c.toNat < 32 ∨ c.toNat = 127) := by omega
    have hesc : rustEscapeChar c = String.singleton c := by
      unfold rustEscapeChar
      rw [if_neg hq, if_neg hb, if_neg hn, if_neg hr, if_neg ht, if_neg h0, if_neg hu]
    show rustEscapeChar c ++ rustEscapeList cs = String.mk (c :: cs)
    rw [hesc, ih hcs]
    rfl

/-- `Debug` renders a plain string's contents verbatim. -/
theorem rustEscapeString_eq_self (s : String) (h : isDebugPlainString s = true) :
    rustEscapeString s = s := by
  show rustEscapeList s.data = s
  rw [rustEscapeList_eq_self s.data h]

/-- C5 counterexample: at the DTO with a newline in `id`, `PresenterB`'s
output escapes the newline as a backslash-n pair, so the formatted string
does not contain the raw `id` value — the claim's universally quantified
containment fails on this input. -/
theorem c5_presenter_substitution_counterexample :
    PresenterB.emit (Except.ok { id := "\n", name := "x" }) =
      Except.ok "DataDto \x7b id: \"\\n\", name: \"x\" \x7d" ∧
    ¬∃ pre mid post, DataDto.rustDebug { id := "\n", name := "x" } =
        pre ++ "\n" ++ mid ++ "x" ++ post := by
  refine ⟨rfl, ?_⟩
  rintro ⟨pre, mid, post, heq⟩
  have hmem : ('\n' : Char) ∈ (DataDto.rustDebug { id := "\n", name := "x" }).data := by
    rw [heq, String.data_append, String.data_append, String.data_append, String.data_append]
    exact List.mem_append_left _ (List.mem_append_left _ (List.mem_append_left _
      (List.mem_append_right _ (by decide))))
  exact absurd hmem (by decide)

/-- C5 (amended): Presenter substitution transparency for DTOs whose
fields contain no characters `Debug` escapes (printable ASCII without
quotes or backslashes). On `Ok(dto)`, `PresenterA` yields `Ok` of a
record with exactly the DTO's fields and `PresenterB` yields `Ok` of the
debug-formatted string, which then contains the `id` and `name` values
verbatim; on `Err(e)` both forward the code; concretely the sample input
yields `Ok({id:"abc123", name:"test man"})` through A and the formatted
string containing `abc123` and `test man` through B. -/
theorem c5_presenter_substitution_amended (dto : DataDto) (e : Nat)
    (hid : isDebugPlainString dto.id = true)
    (hname : isDebugPlainString dto.name = true) :
    PresenterA.emit (Except.ok dto) = Except.ok { id := dto.id, name := dto.name } ∧
    PresenterB.emit (Except.ok dto) = Except.ok (DataDto.rustDebug dto) ∧
    (∃ pre mid post, DataDto.rustDebug dto = pre ++ dto.id ++ mid ++ dto.name ++ post) ∧
    PresenterA.emit (Except.error e) = Except.error e ∧
    PresenterB.emit (Except.error e) = Except.error e ∧
    mainRun1 Handler.init sampleInput = Except.ok { id := "abc123", name := "test man" } ∧
    mainRun2 Handler.init sampleInput =
      Except.ok "DataDto \x7b id: \"abc123\", name: \"test man\" \x7d" := by
  have hid' : rustEscapeString dto.id = dto.id := rustEscapeString_eq_self dto.id hid
  have hname' : rustEscapeString dto.name = dto.name := rustEscapeString_eq_self dto.name hname
  refine ⟨rfl, rfl, ⟨"DataDto \x7b id: \"", "\", name: \"", "\" \x7d", ?_⟩, rfl, rfl, rfl, ?_⟩
  · show "DataDto \x7b id: \"" ++ rustEscapeString dto.id ++ "\", name: \"" ++
        rustEscapeString dto.name ++ "\" \x7d" = _
    rw [hid', hname']
  · show Except.ok (DataDto.rustDebug { id := "abc123", name := "test man" }) =
      Except.ok "DataDto \x7b id: \"abc123\", name: \"test man\" \x7d"
    rw [show DataDto.rustDebug { id := "abc123", name := "test man" } =
      "DataDto \x7b id: \"abc123\", name: \"test man\" \x7d" by decide]

/-- Witness for the amended C5 at the sample input, whose fields are
escape-free. -/
theorem c5_presenter_substitution_amended_witness :
    isDebugPlainString "abc123" = true ∧
    isDebugPlainString "test man" = true ∧
    (∃ pre mid post, DataDto.rustDebug { id := "abc123", name := "test man" } =
        pre ++ "abc123" ++ mid ++ "test man" ++ post) :=
  ⟨by decide, by decide,
    (c5_presenter_substitution_amended { id := "abc123", name := "test man" } 0
      (by decide) (by decide)).2.2.1⟩

/-- C6: The stub repository cannot fail: for every repository value and
every entity, `DataRepository::create` returns `Ok(())`. -/
theorem c6_stub_repository_cannot_fail (r : DataRepository) (d : Data) :
    r.create d = Except.ok () :=
  rfl

/-- C7: Exactly-once invocation, no retry. For every repository and every
DTO, the use-case call invokes the repository exactly once — the trace of
repository invocations is the one-element list holding the constructed
entity — whether the call succeeds or fails, and the returned value is the
first component of that single traced run. -/
theorem c7_exactly_once_invocation (repo : Data → Except Nat Unit) (obj : DataDto) :
    (CreateDataService.createTraced repo obj).2 = [Data.new obj.id obj.name] ∧
    (CreateDataService.createTraced repo obj).2.length = 1 ∧
    CreateDataService.create repo obj = (CreateDataService.createTraced repo obj).1 := by
  have h2 : (CreateDataService.createTraced repo obj).2 = [Data.new obj.id obj.name] := by
    cases h : repo (Data.new obj.id obj.name) <;>
      simp [CreateDataService.createTraced, h]
  exact ⟨h2, by rw [h2]; rfl, rfl⟩

/-- C9: The two ingress conversions agree. For every `UserInputForm`,
`TransformerA::emit` and the `From<UserInputForm>` conversion produce the
identical `DataDto` (both copy `id` and `name` verbatim); consequently the
two controller variants of `main` produce identical view-models on every
input, with either presenter. -/
theorem c9_ingress_conversions_agree (u : UserInputForm) :
    TransformerA.emit u = (Into.into u : DataDto) ∧
    TransformerA.emit u = { id := u.id, name := u.name } ∧
    mainRun1 Handler.init u = mainRun3 Handler.init u ∧
    mainRun2 Handler.init u = mainRun4 Handler.init u :=
  ⟨rfl, rfl, rfl, rfl⟩

/-- C10: The container is fixed and self-referential. `Handler::init`
stores exactly one `DataRepository` (over the placeholder pool),
`Handler::repository` returns that stored repository,
`Handler::create_simple_data_service` returns the handler itself, and the
use-case call resolved through the container is the default service method
running against that single repository. -/
theorem c10_container_fixed_self_referential (h : Handler) :
    Handler.init = { repo := { pool := {} } } ∧
    h.repository = h.repo ∧
    h.create_simple_data_service = h ∧
    (h.create_simple_data_service).repository = h.repo ∧
    (h.create_simple_data_service).create = CreateDataService.create (h.repo.create) :=
  ⟨rfl, rfl, rfl, rfl, rfl⟩

end ControllerTest
